import Mathlib

set_option maxHeartbeats 1000000

namespace ReqForm

/-! Shallow embedding of the lab-requisition service (src/app.py, src/helpers.py).
Python strings are modelled as `String` at interfaces, with character-level
operations carried out on `List Char`. -/

abbrev Str := List Char

/-- Python str.lower on one character (ASCII letters, which is all the matching
keywords use): uppercase A-Z maps to lowercase, every other character unchanged. -/
def pyToLower (c : Char) : Char :=
  if 65 ≤ c.toNat ∧ c.toNat ≤ 90 then Char.ofNat (c.toNat + 32) else c

/-- The whitespace characters removed by Python str.strip(). -/
def pyIsSpace (c : Char) : Bool :=
  c == ' ' || c == '\t' || c == '\n' || c == '\r' || c == '\x0b' || c == '\x0c'

/-- Python str.lower (helpers.py line 192). -/
def pyLower (s : Str) : Str := s.map pyToLower

/-- Python str.strip (helpers.py line 192): drop leading and trailing whitespace. -/
def pyStrip (s : Str) : Str :=
  ((s.dropWhile pyIsSpace).reverse.dropWhile pyIsSpace).reverse

/-- The normalization applied by getFieldMatch before any matching:
text = text.lower().strip() (helpers.py line 192). -/
def normTxt (t : String) : Str := pyStrip (pyLower t.data)

theorem pyToLower_idem (c : Char) : pyToLower (pyToLower c) = pyToLower c := by
  by_cases h : 65 ≤ c.toNat ∧ c.toNat ≤ 90
  · have hc : pyToLower c = Char.ofNat (c.toNat + 32) := by rw [pyToLower, if_pos h]
    rw [hc]
    obtain ⟨m, hm⟩ : ∃ m, c.toNat = m := ⟨_, rfl⟩
    rw [hm] at h ⊢
    obtain ⟨h1, h2⟩ := h
    interval_cases m <;> decide
  · have hc : pyToLower c = c := by rw [pyToLower, if_neg h]
    rw [hc, hc]

theorem pyIsSpace_toNat (c : Char) (h : pyIsSpace c = true) :
    c.toNat = 32 ∨ c.toNat = 9 ∨ c.toNat = 10 ∨ c.toNat = 13 ∨ c.toNat = 11 ∨ c.toNat = 12 := by
  simp only [pyIsSpace, Bool.or_eq_true, beq_iff_eq] at h
  rcases h with ((((h | h) | h) | h) | h) | h <;> subst h <;> decide

theorem pyIsSpace_pyToLower (c : Char) : pyIsSpace (pyToLower c) = pyIsSpace c := by
  by_cases h : 65 ≤ c.toNat ∧ c.toNat ≤ 90
  · have hc : pyToLower c = Char.ofNat (c.toNat + 32) := by rw [pyToLower, if_pos h]
    rw [hc]
    have hs : pyIsSpace c = false := by
      cases hq : pyIsSpace c
      · rfl
      · have hd := pyIsSpace_toNat c hq
        rcases hd with h' | h' | h' | h' | h' | h' <;> omega
    rw [hs]
    obtain ⟨m, hm⟩ : ∃ m, c.toNat = m := ⟨_, rfl⟩
    rw [hm] at h ⊢
    obtain ⟨h1, h2⟩ := h
    interval_cases m <;> decide
  · have hc : pyToLower c = c := by rw [pyToLower, if_neg h]
    rw [hc]

theorem dropWhile_map_pyToLower (l : Str) :
    (l.map pyToLower).dropWhile pyIsSpace = (l.dropWhile pyIsSpace).map pyToLower := by
  induction l with
  | nil => rfl
  | cons c t ih =>
    simp only [List.map_cons, List.dropWhile_cons, pyIsSpace_pyToLower]
    cases h : pyIsSpace c
    · simp [h]
    · simp [h, ih]

theorem pyLower_pyStrip (l : Str) : pyLower (pyStrip l) = pyStrip (pyLower l) := by
  unfold pyLower pyStrip
  simp only [dropWhile_map_pyToLower, ← List.map_reverse]

theorem pyLower_idem (l : Str) : pyLower (pyLower l) = pyLower l := by
  unfold pyLower
  rw [List.map_map]
  exact List.map_congr_left fun a _ => pyToLower_idem a

theorem head_dropWhile_not (p : Char → Bool) (l : Str) (c : Char)
    (h : (l.dropWhile p).head? = some c) : p c = false := by
  induction l with
  | nil => simp at h
  | cons a t ih =>
    rw [List.dropWhile_cons] at h
    by_cases hp : p a
    · exact ih (by simpa [hp] using h)
    · rw [if_neg hp] at h
      rw [List.head?_cons, Option.some.injEq] at h
      subst h
      simpa using hp

theorem dropWhile_eq_self_of_head (p : Char → Bool) (l : Str)
    (h : ∀ c, l.head? = some c → p c = false) : l.dropWhile p = l := by
  cases l with
  | nil => rfl
  | cons a t =>
    have ha : p a = false := h a rfl
    rw [List.dropWhile_cons, if_neg (by simp [ha])]

theorem head?_of_pre {m l : Str} (h : m <+: l) (hm : m ≠ []) : l.head? = m.head? := by
  obtain ⟨t, rfl⟩ := h
  cases m with
  | nil => exact absurd rfl hm
  | cons a b => rfl

theorem pyStrip_idem (l : Str) : pyStrip (pyStrip l) = pyStrip l := by
  set l1 := l.dropWhile pyIsSpace with hl1
  set r := l1.reverse.dropWhile pyIsSpace with hr
  have hstrip : pyStrip l = r.reverse := rfl
  rw [hstrip]
  by_cases hnil : r.reverse = []
  · rw [hnil]
    rfl
  · have hpre : r.reverse <+: l1 := by
      have hsuf : r <:+ l1.reverse := List.dropWhile_suffix pyIsSpace
      have h2 : r.reverse <+: l1.reverse.reverse := List.reverse_prefix.mpr hsuf
      simpa using h2
    have hhead1 : ∀ c, l1.head? = some c → pyIsSpace c = false := by
      intro c hc
      exact head_dropWhile_not pyIsSpace l c (hl1 ▸ hc)
    have hheadr : ∀ c, r.reverse.head? = some c → pyIsSpace c = false := by
      intro c hc
      apply hhead1
      rw [head?_of_pre hpre hnil]
      exact hc
    have hdrop1 : r.reverse.dropWhile pyIsSpace = r.reverse :=
      dropWhile_eq_self_of_head _ _ hheadr
    have hheadr2 : ∀ c, r.head? = some c → pyIsSpace c = false := by
      intro c hc
      exact head_dropWhile_not pyIsSpace l1.reverse c (hr ▸ hc)
    have hdrop2 : r.dropWhile pyIsSpace = r :=
      dropWhile_eq_self_of_head _ _ hheadr2
    show ((r.reverse.dropWhile pyIsSpace).reverse.dropWhile pyIsSpace).reverse = r.reverse
    rw [hdrop1, List.reverse_reverse, hdrop2]

theorem normTxt_idem (l : Str) :
    pyStrip (pyLower (pyStrip (pyLower l))) = pyStrip (pyLower l) := by
  rw [pyLower_pyStrip, pyLower_idem, pyStrip_idem]

/-- Python text.find(pat) >= 0 (substring containment): pat occurs in s. -/
def strFind (pat : Str) : Str → Bool
  | [] => pat.isPrefixOf []
  | c :: t => pat.isPrefixOf (c :: t) || strFind pat t

/-- text.find("kw") >= 0 for a literal keyword, on the normalized text. -/
def sContains (s : Str) (pat : String) : Bool := strFind pat.data s

/-- One entry of FIELD_CONFIG["fields"] (field_config.json, loaded in app.py
line 22): the widget identifier and the checked-state value. -/
structure FieldSpec where
  field_xref : String
  on_state : String
deriving DecidableEq

/-- FIELD_CONFIG["fields"]: lookup from a symbolic field name to its FieldSpec.
Modelled as a total function; the spec invariant is that every name the code
references is present in the mapping. -/
def FieldConfig := String → FieldSpec

/-- The basic-info dictionary produced by getBasicInfo, accessed by field_xref
(used by the neonatal rule, helpers.py lines 241-242). -/
def BasicInfo := String → String

/-- A Python dict from field_xref to value, modelled as its ordered list of
writes; a lookup is last-write-wins, and truthiness is non-emptiness. -/
abbrev Dict := List (String × String)

/-- fields[config["fields"][name]["field_xref"]] = config["fields"][name]["on_state"]:
the standard write that every classifier rule performs. -/
def W (config : FieldConfig) (name : String) : String × String :=
  ((config name).field_xref, (config name).on_state)

/-- helpers.py line 196: text.find("glucose") >= 0. -/
def glucoseCond (s : Str) : Bool := sContains s "glucose"

/-- helpers.py line 203: text.find("hba1c") >= 0. -/
def hba1cCond (s : Str) : Bool := sContains s "hba1c"

/-- helpers.py line 206: creatinine present and albumin absent. -/
def creatinineCond (s : Str) : Bool := sContains s "creatinine" && !sContains s "albumin"

/-- helpers.py line 209: text.find("uric") >= 0. -/
def uricCond (s : Str) : Bool := sContains s "uric"

/-- helpers.py line 212: text.find("sodium") >= 0. -/
def sodiumCond (s : Str) : Bool := sContains s "sodium"

/-- helpers.py line 215: text.find("potassium") >= 0. -/
def potassiumCond (s : Str) : Bool := sContains s "potassium"

/-- helpers.py line 218: text.find("alt") >= 0. -/
def altCond (s : Str) : Bool := sContains s "alt"

/-- helpers.py line 221: text.find("phosphatase") >= 0. -/
def phosphataseCond (s : Str) : Bool := sContains s "phosphatase"

/-- helpers.py line 224: bilirubin present and neonatal absent. -/
def bilirubinCond (s : Str) : Bool := sContains s "bilirubin" && !sContains s "neonatal"

/-- helpers.py line 227: albumin present and creatinine absent. -/
def albuminCond (s : Str) : Bool := sContains s "albumin" && !sContains s "creatinine"

/-- helpers.py line 230: text.find("lipid assessment") >= 0. -/
def lipidCond (s : Str) : Bool := sContains s "lipid assessment"

/-- helpers.py line 233 (Python and/or precedence): (albumin and creatinine) or
(albumin and ratio) or (creatinine and ratio). -/
def ratioCond (s : Str) : Bool :=
  (sContains s "albumin" && sContains s "creatinine") ||
  (sContains s "albumin" && sContains s "ratio") ||
  (sContains s "creatinine" && sContains s "ratio")

/-- helpers.py line 236: text.find("urinalysis") >= 0. -/
def urinalysisCond (s : Str) : Bool := sContains s "urinalysis"

/-- helpers.py line 239: text.find("neonatal") >= 0. -/
def neonatalCond (s : Str) : Bool := sContains s "neonatal"

/-- helpers.py line 244: text.find("therapeutic") >= 0. -/
def therapeuticCond (s : Str) : Bool := sContains s "therapeutic"

/-- helpers.py line 247: text.find("cbc") >= 0. -/
def cbcCond (s : Str) : Bool := sContains s "cbc"

/-- helpers.py line 250: text.find("prothrombin") >= 0. -/
def prothrombinCond (s : Str) : Bool := sContains s "prothrombin"

/-- helpers.py line 253: text.find("pregnancy") >= 0. -/
def pregnancyCond (s : Str) : Bool := sContains s "pregnancy"

/-- helpers.py line 256: text.find("mononucleosis") >= 0. -/
def mononucleosisCond (s : Str) : Bool := sContains s "mononucleosis"

/-- helpers.py line 259: text.find("rubella") >= 0. -/
def rubellaCond (s : Str) : Bool := sContains s "rubella"

/-- helpers.py line 262: (prenatal and antibody) or (prenatal and screen) or
(antibody and screen). -/
def prenatalCond (s : Str) : Bool :=
  (sContains s "prenatal" && sContains s "antibody") ||
  (sContains s "prenatal" && sContains s "screen") ||
  (sContains s "antibody" && sContains s "screen")

/-- helpers.py line 265: prenatal and repeat. -/
def repeatPrenatalCond (s : Str) : Bool := sContains s "prenatal" && sContains s "repeat"

/-- helpers.py line 268: text.find("cervical") >= 0. -/
def cervicalCond (s : Str) : Bool := sContains s "cervical"

/-- helpers.py line 271: text.find("vaginal") >= 0. -/
def vaginalCond (s : Str) : Bool := sContains s "vaginal"

/-- helpers.py line 272: rectal or group or strep (inside the vaginal branch). -/
def vagRectalCond (s : Str) : Bool :=
  sContains s "rectal" || sContains s "group" || sContains s "strep"

/-- helpers.py line 278: text.find("rectal") >= 0. -/
def rectalCond (s : Str) : Bool := sContains s "rectal"

/-- helpers.py line 281: text.find("chlamydia") >= 0. -/
def chlamydiaCond (s : Str) : Bool := sContains s "chlamydia"

/-- helpers.py line 284: text.find("gc") >= 0. -/
def gcCond (s : Str) : Bool := sContains s "gc"

/-- helpers.py line 287: text.find("sputum") >= 0. -/
def sputumCond (s : Str) : Bool := sContains s "sputum"

/-- helpers.py line 290: text.find("throat") >= 0. -/
def throatCond (s : Str) : Bool := sContains s "throat"

/-- helpers.py line 293: text.find("wound") >= 0. -/
def woundCond (s : Str) : Bool := sContains s "wound"

/-- helpers.py line 300: urine present and albumin, creatinine, ratio,
pregnancy all absent. -/
def urineCond (s : Str) : Bool :=
  sContains s "urine" && !sContains s "albumin" && !sContains s "creatinine" &&
  !sContains s "ratio" && !sContains s "pregnancy"

/-- helpers.py line 303: text.find("culture") >= 0. -/
def cultureCond (s : Str) : Bool := sContains s "culture"

/-- helpers.py line 306: (stool and ova) or (stool and parasites). -/
def stoolCond (s : Str) : Bool :=
  (sContains s "stool" && sContains s "ova") ||
  (sContains s "stool" && sContains s "parasites")

/-- helpers.py line 309: text.find("swabs") >= 0. -/
def swabsCond (s : Str) : Bool := sContains s "swabs"

/-- helpers.py line 312: text.find("acute") >= 0. -/
def acuteCond (s : Str) : Bool := sContains s "acute"

/-- helpers.py line 315: text.find("chronic") >= 0. -/
def chronicCond (s : Str) : Bool := sContains s "chronic"

/-- helpers.py line 318: status or exposure. -/
def statusCond (s : Str) : Bool := sContains s "status" || sContains s "exposure"

/-- helpers.py line 327: text.find("total") >= 0. -/
def totalCond (s : Str) : Bool := sContains s "total"

/-- helpers.py line 330: text.find("free") >= 0. -/
def freeCond (s : Str) : Bool := sContains s "free"

/-- helpers.py line 333: vitamin or hydroxy. -/
def vitaminCond (s : Str) : Bool := sContains s "vitamin" || sContains s "hydroxy"

/-- Python text.split("wound") with a non-empty separator, by left-to-right
non-overlapping scanning; fuel is an upper bound on the number of steps. -/
def splitAux (sep : Str) : Nat → Str → Str → List Str
  | 0, acc, rest => [acc.reverse ++ rest]
  | fuel + 1, acc, rest =>
    if sep.isPrefixOf rest then acc.reverse :: splitAux sep fuel [] (rest.drop sep.length)
    else
      match rest with
      | [] => [acc.reverse]
      | c :: t => splitAux sep fuel (c :: acc) t

/-- Python s.split(sep) for a non-empty separator. -/
def pySplit (s : Str) (sep : String) : List Str := splitAux sep.data (s.length + 1) [] s

/-- helpers.py lines 295-297: specificWound = ""; for word in text.split("wound"):
specificWound = specificWound + word.strip() + " ". -/
def specificWound (text : Str) : String :=
  (pySplit text "wound").foldl (fun acc word => acc ++ String.mk (pyStrip word) ++ " ") ""

/-- getFieldMatch's rule chain (helpers.py lines 195-338), applied to the
already-normalized text. Returns some dict-writes when a rule fired (possibly
an empty dict, as the vitamin-D rule can), and none when the function falls off
the end of the elif chain (Python implicitly returns None). -/
def getFieldMatchCore (text : Str) (config : FieldConfig) (basicInfo : BasicInfo) : Option Dict :=
  if glucoseCond text then
    -- lines 196-202; note line 201 writes the glucose_test_fasting xref with
    -- the glucose_test_random on_state, exactly as the source does
    some ([W config "glucose"] ++
      (if sContains text "random" then [W config "glucose_test_random"]
       else if sContains text "fasting" then
         [((config "glucose_test_fasting").field_xref, (config "glucose_test_random").on_state)]
       else []))
  else if hba1cCond text then
    some [W config "hba1c"]
  else if creatinineCond text then
    some [W config "creatinine"]
  else if uricCond text then
    some [W config "uric_acid"]
  else if sodiumCond text then
    some [W config "sodium"]
  else if potassiumCond text then
    some [W config "potassium"]
  else if altCond text then
    some [W config "alt"]
  else if phosphataseCond text then
    some [W config "alk_phosphatase"]
  else if bilirubinCond text then
    some [W config "bilirubin"]
  else if albuminCond text then
    some [W config "albumin"]
  else if lipidCond text then
    some [W config "lipid_assessment"]
  else if ratioCond text then
    some [W config "albumin_creatinine_ratio"]
  else if urinalysisCond text then
    some [W config "urinalysis"]
  else if neonatalCond text then
    some [W config "neonatal_bilirubin",
          ((config "neonatal_doctor_phone").field_xref, basicInfo (config "doctor_phone").field_xref),
          ((config "neonatal_patient_phone").field_xref, basicInfo (config "patient_phone").field_xref)]
  else if therapeuticCond text then
    some [W config "therapeutic_drug"]
  else if cbcCond text then
    some [W config "cbc"]
  else if prothrombinCond text then
    some [W config "prothrombin_time"]
  else if pregnancyCond text then
    some [W config "pregnancy_urine"]
  else if mononucleosisCond text then
    some [W config "mononucleosis_screen"]
  else if rubellaCond text then
    some [W config "rubella"]
  else if prenatalCond text then
    some [W config "prenatal"]
  else if repeatPrenatalCond text then
    some [W config "repeat_prenatal_antibodies"]
  else if cervicalCond text then
    some [W config "cervical"]
  else if vaginalCond text then
    some (if vagRectalCond text then [W config "vaginal_rectal"] else [W config "vaginal"])
  else if rectalCond text then
    some [W config "vaginal_rectal"]
  else if chlamydiaCond text then
    some [W config "chlamydia"]
  else if gcCond text then
    some [W config "gc"]
  else if sputumCond text then
    some [W config "sputum"]
  else if throatCond text then
    some [W config "throat"]
  else if woundCond text then
    some [W config "wound", ((config "specify_wound").field_xref, specificWound text)]
  else if urineCond text then
    some [W config "urine"]
  else if cultureCond text then
    some [W config "stool_culture"]
  else if stoolCond text then
    some [W config "stool_ova_parasites"]
  else if swabsCond text then
    some [W config "other_swabs"]
  else if acuteCond text then
    some [W config "viral_hep_acute"]
  else if chronicCond text then
    some [W config "viral_hep_chronic"]
  else if statusCond text then
    some ([W config "viral_hep_immune"] ++
      (if sContains text "hepatitis a" then [W config "viral_hep_immune_a"]
       else if sContains text "hepatitis b" then [W config "viral_hep_immune_b"]
       else if sContains text "hepatitis c" then [W config "viral_hep_immune_c"]
       else []))
  else if totalCond text then
    some [W config "total_psa"]
  else if freeCond text then
    some [W config "free_psa"]
  else if vitaminCond text then
    some (if sContains text "insured" then [W config "insured_vitd"]
          else if sContains text "uninsured" then [W config "uninsured_vitd"]
          else [])
  else
    none

/-- helpers.py getFieldMatch (lines 186-338): normalize the text (line 192),
then run the rule chain. -/
def getFieldMatch (text : String) (config : FieldConfig) (basicInfo : BasicInfo) : Option Dict :=
  getFieldMatchCore (normTxt text) config basicInfo

/-- Python truthiness of getFieldMatch's result as used by "if entry:" in
app.py line 75: None and the empty dict are both falsy. -/
def pyTruthy (entry : Option Dict) : Bool :=
  match entry with
  | none => false
  | some d => !d.isEmpty

/-- app.py line 25. -/
def MAX_OTHER_TESTS : Nat := 11

/-- The classification loop of app.py lines 71-80: entries and count thread
through the loop; a truthy match is merged into entries, otherwise the raw line
goes into the next other_tests slot while count < MAX_OTHER_TESTS. -/
def submitLoop (config : FieldConfig) (basicInfo : BasicInfo) :
    List String → Nat → Dict → Dict × Nat
  | [], count, entries => (entries, count)
  | line :: rest, count, entries =>
    let entry := getFieldMatch line config basicInfo
    if pyTruthy entry then
      submitLoop config basicInfo rest count (entries ++ entry.getD [])
    else if count < MAX_OTHER_TESTS then
      submitLoop config basicInfo rest (count + 1)
        (entries ++ [((config ("other_tests" ++ toString (count + 1))).field_xref, line)])
    else
      submitLoop config basicInfo rest count entries

/-- The lines of a request that the classifier leaves unmatched (falsy result). -/
def unmatchedLines (config : FieldConfig) (basicInfo : BasicInfo) (inputs : List String) :
    List String :=
  inputs.filter (fun l => !pyTruthy (getFieldMatch l config basicInfo))

/-- The form identifier of overflow slot i (the field other_testsi). -/
def slotXref (config : FieldConfig) (i : Nat) : String :=
  (config ("other_tests" ++ toString i)).field_xref

/-- Whether a dict key is one of the 11 overflow-slot identifiers. -/
def isSlotKey (config : FieldConfig) (k : String) : Bool :=
  (List.range MAX_OTHER_TESTS).any (fun i => k == slotXref config (i + 1))

/-- Spec-side description of overflow handling (spec section 3, OverflowSlot):
the unmatched lines are consumed in request order, first-available slot first,
and once the 11 slots are exhausted the remaining lines are dropped. -/
def overflowAssign (config : FieldConfig) : List String → Nat → List (String × String)
  | [], _ => []
  | l :: ls, c =>
    if c < MAX_OTHER_TESTS then (slotXref config (c + 1), l) :: overflowAssign config ls (c + 1)
    else []

/-- A concrete field configuration used to instantiate the theorems: every
field name gets a distinct xref and a distinct on_state. -/
def testCfg : FieldConfig := fun name => ⟨"X_" ++ name, "On_" ++ name⟩

/-- A concrete basic-info table used to instantiate the theorems. -/
def testBi : BasicInfo := fun k => "B_" ++ k

/-- helpers.py getProvAbbrv (lines 59-93): two-letter input passes through,
the 13 full names map to fixed codes, anything else maps to "NA". -/
def getProvAbbrv (province : String) : String :=
  if province.length = 2 then province
  else if province = "Alberta" then "AB"
  else if province = "British Columbia" then "BC"
  else if province = "Manitoba" then "MB"
  else if province = "New Brunswick" then "NB"
  else if province = "Newfoundland and Labrador" then "NL"
  else if province = "Nova Scotia" then "NS"
  else if province = "Northwest Territories" then "NT"
  else if province = "Nunavut" then "NU"
  else if province = "Ontario" then "ON"
  else if province = "Prince Edward Island" then "PE"
  else if province = "Quebec" then "QC"
  else if province = "Saskatchewan" then "SK"
  else if province = "Yukon" then "YK"
  else "NA"

/-- The 13 full province and territory names enumerated by getProvAbbrv. -/
def provinceNames : List String :=
  ["Alberta", "British Columbia", "Manitoba", "New Brunswick",
   "Newfoundland and Labrador", "Nova Scotia", "Northwest Territories",
   "Nunavut", "Ontario", "Prince Edward Island", "Quebec", "Saskatchewan",
   "Yukon"]

/-- Modelled from the spec: the "standard two-letter codes" of the 13 Canadian
provinces and territories that the spec says the normalizer returns. These are
the Canada Post abbreviations; this mapping is reference data, not part of the
source. Yukon's standard code is "YT". -/
def standardProvAbbrv (province : String) : String :=
  if province = "Alberta" then "AB"
  else if province = "British Columbia" then "BC"
  else if province = "Manitoba" then "MB"
  else if province = "New Brunswick" then "NB"
  else if province = "Newfoundland and Labrador" then "NL"
  else if province = "Nova Scotia" then "NS"
  else if province = "Northwest Territories" then "NT"
  else if province = "Nunavut" then "NU"
  else if province = "Ontario" then "ON"
  else if province = "Prince Edward Island" then "PE"
  else if province = "Quebec" then "QC"
  else if province = "Saskatchewan" then "SK"
  else if province = "Yukon" then "YT"
  else "NA"

/-- Numeric value of a decimal digit character. -/
def digitVal (c : Char) : Nat := c.toNat - 48

/-- strptime %m (regex 1[0-2]|0[1-9]|[1-9]): month, trying the two-digit
alternatives first, returning the value and the unconsumed characters. -/
def parseMonth : Str → Option (Nat × Str)
  | c1 :: c2 :: t =>
    if c1 == '1' && '0' ≤ c2 && c2 ≤ '2' then some (10 + digitVal c2, t)
    else if c1 == '0' && '1' ≤ c2 && c2 ≤ '9' then some (digitVal c2, t)
    else if '1' ≤ c1 && c1 ≤ '9' then some (digitVal c1, c2 :: t)
    else none
  | [c1] => if '1' ≤ c1 && c1 ≤ '9' then some (digitVal c1, []) else none
  | [] => none

/-- strptime %d (regex 3[01]|[1-2]\d|0[1-9]|[1-9]): day of month. -/
def parseDay : Str → Option (Nat × Str)
  | c1 :: c2 :: t =>
    if c1 == '3' && '0' ≤ c2 && c2 ≤ '1' then some (30 + digitVal c2, t)
    else if '1' ≤ c1 && c1 ≤ '2' && '0' ≤ c2 && c2 ≤ '9' then
      some (digitVal c1 * 10 + digitVal c2, t)
    else if c1 == '0' && '1' ≤ c2 && c2 ≤ '9' then some (digitVal c2, t)
    else if '1' ≤ c1 && c1 ≤ '9' then some (digitVal c1, c2 :: t)
    else none
  | [c1] => if '1' ≤ c1 && c1 ≤ '9' then some (digitVal c1, []) else none
  | [] => none

/-- strptime %H (regex 2[0-3]|[0-1]\d|\d): hour. -/
def parseHour : Str → Option (Nat × Str)
  | c1 :: c2 :: t =>
    if c1 == '2' && '0' ≤ c2 && c2 ≤ '3' then some (20 + digitVal c2, t)
    else if '0' ≤ c1 && c1 ≤ '1' && '0' ≤ c2 && c2 ≤ '9' then
      some (digitVal c1 * 10 + digitVal c2, t)
    else if c1.isDigit then some (digitVal c1, c2 :: t)
    else none
  | [c1] => if c1.isDigit then some (digitVal c1, []) else none
  | [] => none

/-- strptime %M (regex [0-5]\d|\d): minute. -/
def parseMinute : Str → Option (Nat × Str)
  | c1 :: c2 :: t =>
    if '0' ≤ c1 && c1 ≤ '5' && '0' ≤ c2 && c2 ≤ '9' then
      some (digitVal c1 * 10 + digitVal c2, t)
    else if c1.isDigit then some (digitVal c1, c2 :: t)
    else none
  | [c1] => if c1.isDigit then some (digitVal c1, []) else none
  | [] => none

/-- strptime %S (regex 6[0-1]|[0-5]\d|\d): second (60 and 61 are accepted by
the regex but rejected later by the datetime constructor). -/
def parseSecond : Str → Option (Nat × Str)
  | c1 :: c2 :: t =>
    if c1 == '6' && '0' ≤ c2 && c2 ≤ '1' then some (60 + digitVal c2, t)
    else if '0' ≤ c1 && c1 ≤ '5' && '0' ≤ c2 && c2 ≤ '9' then
      some (digitVal c1 * 10 + digitVal c2, t)
    else if c1.isDigit then some (digitVal c1, c2 :: t)
    else none
  | [c1] => if c1.isDigit then some (digitVal c1, []) else none
  | [] => none

/-- Gregorian leap year, as datetime uses. -/
def isLeap (y : Nat) : Bool := y % 4 == 0 && (y % 100 != 0 || y % 400 == 0)

/-- Days in a month, as the datetime constructor validates. -/
def daysInMonth (y m : Nat) : Nat :=
  if m = 2 then (if isLeap y then 29 else 28)
  else if m = 4 || m = 6 || m = 9 || m = 11 then 30
  else 31

/-- datetime.strptime(date, "%Y-%m-%dT%H:%M:%S.%fZ") (helpers.py line 109):
four-digit year, then month, day, hour, minute, second, a 1-6 digit fraction,
a literal Z, end of string; the datetime constructor additionally requires
year at least 1, second at most 59 and the day to fit the month. Returns the
(year, month, day) triple on success. -/
def parseTS (s : String) : Option (Nat × Nat × Nat) :=
  match s.data with
  | c1 :: c2 :: c3 :: c4 :: '-' :: rest1 =>
    if c1.isDigit && c2.isDigit && c3.isDigit && c4.isDigit then
      let year := ((digitVal c1 * 10 + digitVal c2) * 10 + digitVal c3) * 10 + digitVal c4
      match parseMonth rest1 with
      | some (month, rest2) =>
        match rest2 with
        | '-' :: rest3 =>
          match parseDay rest3 with
          | some (day, rest4) =>
            match rest4 with
            | 'T' :: rest5 =>
              match parseHour rest5 with
              | some (_, rest6) =>
                match rest6 with
                | ':' :: rest7 =>
                  match parseMinute rest7 with
                  | some (_, rest8) =>
                    match rest8 with
                    | ':' :: rest9 =>
                      match parseSecond rest9 with
                      | some (second, rest10) =>
                        match rest10 with
                        | '.' :: rest11 =>
                          let frac := rest11.takeWhile Char.isDigit
                          let rest12 := rest11.dropWhile Char.isDigit
                          if 1 ≤ frac.length && frac.length ≤ 6 then
                            match rest12 with
                            | ['Z'] =>
                              if 1 ≤ year && second ≤ 59 && day ≤ daysInMonth year month then
                                some (year, month, day)
                              else none
                            | _ => none
                          else none
                        | _ => none
                      | none => none
                    | _ => none
                  | none => none
                | _ => none
              | none => none
            | _ => none
          | none => none
        | _ => none
      | none => none
    else none
  | _ => none

/-- The year/month/day dictionary that parseDoB returns. -/
structure DoB where
  year : String
  month : String
  day : String
deriving DecidableEq

/-- The sentinel dictionary for a missing or unparsable date. -/
def dobSentinel : DoB := ⟨"0000", "00", "00"⟩

/-- helpers.py parseDoB (lines 96-123): None yields the sentinel; a parse
failure is caught and yields the sentinel; otherwise year, month and day are
converted with str(), i.e. unpadded decimal. -/
def parseDoB (date : Option String) : DoB :=
  match date with
  | none => dobSentinel
  | some s =>
    match parseTS s with
    | none => dobSentinel
    | some (y, m, d) => ⟨toString y, toString m, toString d⟩

/-- helpers.py getSex (lines 126-135). -/
def getSex (sex : String) : String :=
  if sex = "Male" then "M"
  else if sex = "Female" then "F"
  else "Off"

/-- A JSON value arriving in the request body, as far as the handler
inspects it (numbers that are not integers are out of scope of this model). -/
inductive PyVal where
  | pyNone
  | pyInt (n : Int)
  | pyStr (s : String)
  | pyList (l : List String)
  | pyOther
deriving DecidableEq

/-- Whether a character string is accepted by Python int(): an optional sign
followed by digits, where single underscores may separate digits. -/
def pyIntDigits : Str → Bool
  | [] => false
  | [c] => c.isDigit
  | c :: '_' :: rest => c.isDigit && pyIntDigits rest
  | c :: rest => c.isDigit && pyIntDigits rest

/-- The numeric value of such a digit string, skipping underscores. -/
def digitsVal (s : Str) : Nat :=
  s.foldl (fun acc c => if c == '_' then acc else acc * 10 + digitVal c) 0

/-- Python int(str): whitespace is stripped, an optional sign is allowed, the
rest must be digits (with optional single underscores); none models the
ValueError raised otherwise. -/
def pyStrToInt (s : String) : Option Int :=
  match pyStrip s.data with
  | '+' :: rest => if pyIntDigits rest then some (Int.ofNat (digitsVal rest)) else none
  | '-' :: rest => if pyIntDigits rest then some (-(Int.ofNat (digitsVal rest))) else none
  | rest => if pyIntDigits rest then some (Int.ofNat (digitsVal rest)) else none

/-- Python int(x) as applied in app.py lines 48-49: an int passes through, a
string is parsed, and None or any other shape raises TypeError (modelled as
none; the ValueError and TypeError paths land in the same except clause). -/
def pyToInt : PyVal → Option Int
  | PyVal.pyInt n => some n
  | PyVal.pyStr s => pyStrToInt s
  | _ => none

/-- valid_ids.json as loaded in app.py line 31: the preloaded id sets. -/
structure ValidIds where
  patients : List Int
  doctors : List Int

/-- The request body fields that receive_text reads (app.py lines 41-44). -/
structure RequestData where
  patient_id : PyVal
  doctor_id : PyVal
  inputs : PyVal

/-- The observable outcome of the handler: an error response with an HTTP
status and message, or the field data handed to fillPDF/send_file. -/
inductive Response where
  | clientError (status : Nat) (message : String)
  | sentFile (fieldData : Dict)
deriving DecidableEq

/-- Last-write-wins lookup in a dict of writes, defaulting to "" (the model of
basic_info[key]; the spec invariant keeps the needed keys present). -/
def dictGet (d : Dict) (k : String) : String :=
  ((d.reverse.find? (fun w => w.1 == k)).map (fun w => w.2)).getD ""

/-- app.py receive_text (lines 39-88). The remote fetch getBasicInfo is passed
in as a function (it is network I/O); the success response carries the merged
field_data that fillPDF would receive. Order as in the source: integer check,
id validation, list check, then fetch, classification loop and merge. -/
def receive_text (config : FieldConfig) (fetchBasicInfo : Int → Int → Dict)
    (valid : ValidIds) (data : RequestData) : Response :=
  match pyToInt data.patient_id, pyToInt data.doctor_id with
  | some patient_id, some doctor_id =>
    let errors :=
      (if patient_id ∈ valid.patients then [] else ["Invalid patient ID: " ++ toString patient_id]) ++
      (if doctor_id ∈ valid.doctors then [] else ["Invalid doctor ID: " ++ toString doctor_id])
    if errors.isEmpty then
      match data.inputs with
      | PyVal.pyList inputs =>
        let basic_info := fetchBasicInfo doctor_id patient_id
        let entries := (submitLoop config (dictGet basic_info) inputs 0 []).1
        Response.sentFile (basic_info ++ entries)
      | _ => Response.clientError 400 "Error: Expected a list of inputs"
    else Response.clientError 400 (String.intercalate "; " errors)
  | _, _ => Response.clientError 400 "Error: Patient ID and Doctor ID must be integers"

/-- The disjunction of the rule conditions checked before the ratio rule
(helpers.py lines 196-230). -/
def ratioPrior (s : Str) : Bool :=
  glucoseCond s || hba1cCond s || creatinineCond s || uricCond s || sodiumCond s ||
  potassiumCond s || altCond s || phosphataseCond s || bilirubinCond s ||
  albuminCond s || lipidCond s

/-- The disjunction of the rule conditions checked before the wound rule
(helpers.py lines 196-291). -/
def woundPrior (s : Str) : Bool :=
  ratioPrior s || ratioCond s || urinalysisCond s || neonatalCond s ||
  therapeuticCond s || cbcCond s || prothrombinCond s || pregnancyCond s ||
  mononucleosisCond s || rubellaCond s || prenatalCond s || repeatPrenatalCond s ||
  cervicalCond s || vaginalCond s || rectalCond s || chlamydiaCond s || gcCond s ||
  sputumCond s || throatCond s

/-- The disjunction of the rule conditions checked before the vitamin-D rule
(helpers.py lines 196-332). -/
def vitaminPrior (s : Str) : Bool :=
  woundPrior s || woundCond s || urineCond s || cultureCond s || stoolCond s ||
  swabsCond s || acuteCond s || chronicCond s || statusCond s || totalCond s ||
  freeCond s

/-- The lowercased, leading-and-trailing-whitespace-stripped form of a string. -/
def pyLowerStrip (t : String) : String := String.mk (pyStrip (pyLower t.data))

/-- Claim C8: classification is invariant under case and surrounding
whitespace of the input line: for every text, configuration and basic-info
table, getFieldMatch of the text equals getFieldMatch of its lowercased,
trimmed form. -/
theorem c8_normalization_invariant (t : String) (cfg : FieldConfig) (bi : BasicInfo) :
    getFieldMatch t cfg bi = getFieldMatch (pyLowerStrip t) cfg bi := by
  unfold getFieldMatch pyLowerStrip normTxt
  rw [show (String.mk (pyStrip (pyLower t.data))).data = pyStrip (pyLower t.data) from rfl]
  rw [normTxt_idem]

/-- Claim C5 counterexample: the claim says each of the 13 enumerated names
maps to that province's standard two-letter code, but getProvAbbrv maps
"Yukon" to "YK" while the standard code is "YT". -/
theorem c5_counterexample :
    getProvAbbrv "Yukon" = "YK" ∧ standardProvAbbrv "Yukon" = "YT" ∧ ("YK" : String) ≠ "YT" := by
  refine ⟨by decide, by decide, by decide⟩

/-- Claim C5 (amended): a two-character input is returned unchanged; each of
the 13 enumerated names maps to the fixed table code, which agrees with the
standard code for every name except Yukon, which maps to "YK" instead of the
standard "YT"; every other input maps to "NA". -/
theorem c5_amended :
    (∀ s : String, s.length = 2 → getProvAbbrv s = s)
    ∧ (∀ p ∈ provinceNames, p ≠ "Yukon" → getProvAbbrv p = standardProvAbbrv p)
    ∧ getProvAbbrv "Yukon" = "YK"
    ∧ (∀ s : String, s.length ≠ 2 → s ∉ provinceNames → getProvAbbrv s = "NA") := by
  refine ⟨?_, by decide, by decide, ?_⟩
  · intro s h
    rw [getProvAbbrv, if_pos h]
  · intro s h hm
    simp only [provinceNames, List.mem_cons, List.not_mem_nil, or_false, not_or] at hm
    obtain ⟨n1, n2, n3, n4, n5, n6, n7, n8, n9, n10, n11, n12, n13⟩ := hm
    rw [getProvAbbrv, if_neg h, if_neg n1, if_neg n2, if_neg n3, if_neg n4, if_neg n5,
      if_neg n6, if_neg n7, if_neg n8, if_neg n9, if_neg n10, if_neg n11, if_neg n12,
      if_neg n13]

/-- Claim C5 witness: the amended statement instantiated at a two-letter code
and at an unrecognized name. -/
theorem c5_witness : getProvAbbrv "ON" = "ON" ∧ getProvAbbrv "Texas" = "NA" :=
  ⟨c5_amended.1 "ON" (by decide), c5_amended.2.2.2 "Texas" (by decide) (by decide)⟩

/-- Claim C6: parseDoB never fails: a missing date and an unparsable date both
yield the sentinel dictionary, and a well-formed timestamp yields year, month
and day as unpadded decimal strings; in particular the example timestamp
yields year "2023", month "4", day "6". -/
theorem c6_parseDoB :
    parseDoB none = dobSentinel
    ∧ (∀ s : String, parseTS s = none → parseDoB (some s) = dobSentinel)
    ∧ (∀ s : String, ∀ y m d : Nat, parseTS s = some (y, m, d) →
        parseDoB (some s) = ⟨toString y, toString m, toString d⟩)
    ∧ parseDoB (some "not-a-date") = dobSentinel
    ∧ parseDoB (some "2023-04-06T00:00:00.00Z") = ⟨"2023", "4", "6"⟩ := by
  refine ⟨rfl, ?_, ?_, rfl, by decide⟩
  · intro s h
    simp [parseDoB, h]
  · intro s y m d h
    simp [parseDoB, h]

/-- Claim C6 witness: the sentinel branch and the success branch of the claim
instantiated at concrete dates. -/
theorem c6_witness :
    parseDoB (some "nope") = dobSentinel
    ∧ parseDoB (some "1999-12-31T23:59:59.999999Z") = ⟨"1999", "12", "31"⟩ :=
  ⟨c6_parseDoB.2.1 "nope" rfl,
   c6_parseDoB.2.2.1 "1999-12-31T23:59:59.999999Z" 1999 12 31 (by decide)⟩

/-- Claim C2: at the failing input "fasting glucose", the fasting sub-field's
xref is written with the random sub-field's on_state (helpers.py line 201
reads config["fields"]["glucose_test_random"]["on_state"]), so with a
configuration whose two sub-fields carry distinct on_state values the fasting
assignment does not receive the fasting sub-field's own on_state. -/
theorem c2_fasting_uses_random_on_state :
    getFieldMatch "fasting glucose" testCfg testBi =
      some [W testCfg "glucose",
            ((testCfg "glucose_test_fasting").field_xref, (testCfg "glucose_test_random").on_state)]
    ∧ (testCfg "glucose_test_random").on_state ≠ (testCfg "glucose_test_fasting").on_state := by
  refine ⟨by decide, by decide⟩

/-- Claim C3 counterexample: classifying "wound on left forearm" stores
" on left forearm " in the specify field; the value keeps a leading and a
trailing space, so it is not the whitespace-trimmed "on left forearm" the
claim asserts. -/
theorem c3_counterexample :
    getFieldMatch "wound on left forearm" testCfg testBi =
      some [W testCfg "wound", ((testCfg "specify_wound").field_xref, " on left forearm ")]
    ∧ (" on left forearm " : String) ≠ "on left forearm" := by
  refine ⟨by decide, by decide⟩

theorem data_append (a b : String) : (a ++ b).data = a.data ++ b.data := by
  cases a
  cases b
  rfl

theorem splitAux_ne_nil (sep : Str) (fuel : Nat) (acc rest : Str) :
    splitAux sep fuel acc rest ≠ [] := by
  induction fuel generalizing acc rest with
  | zero => simp [splitAux]
  | succ n ih =>
    simp only [splitAux]
    split_ifs with h
    · simp
    · cases rest with
      | nil => simp
      | cons c t => exact ih (c :: acc) t

theorem foldl_strip_last (l : List Str) (init : String) (hl : l ≠ []) :
    ((l.foldl (fun acc word => acc ++ String.mk (pyStrip word) ++ " ") init).data).getLast? =
      some ' ' := by
  induction l generalizing init with
  | nil => exact absurd rfl hl
  | cons w ws ih =>
    cases ws with
    | nil =>
      simp only [List.foldl_cons, List.foldl_nil]
      rw [data_append]
      rw [show (" " : String).data = [' '] from rfl]
      exact List.getLast?_concat _
    | cons w2 ws2 =>
      rw [List.foldl_cons]
      exact ih _ (by simp)

theorem specificWound_last (s : Str) : (specificWound s).data.getLast? = some ' ' := by
  unfold specificWound
  exact foldl_strip_last _ _ (splitAux_ne_nil _ _ _ _)

/-- Claim C3 (amended): a line containing "wound" that no earlier rule matches
yields the wound field plus a specify-wound assignment whose value is built by
splitting the normalized line on "wound", stripping each piece, and appending
each stripped piece followed by a single space; the result always ends in a
space (and begins with one when the line starts with "wound"), so it is not
whitespace-trimmed. In particular "wound on left forearm" yields the specify
value " on left forearm ". -/
theorem c3_amended (cfg : FieldConfig) (bi : BasicInfo) (t : String)
    (hw : woundCond (normTxt t) = true) (hp : woundPrior (normTxt t) = false) :
    getFieldMatch t cfg bi =
      some [W cfg "wound", ((cfg "specify_wound").field_xref, specificWound (normTxt t))]
    ∧ (specificWound (normTxt t)).data.getLast? = some ' ' := by
  simp only [woundPrior, ratioPrior, Bool.or_eq_false_iff] at hp
  obtain ⟨⟨⟨⟨⟨⟨⟨⟨⟨⟨⟨⟨⟨⟨⟨⟨⟨⟨⟨⟨⟨⟨⟨⟨⟨⟨⟨⟨q1, q2⟩, q3⟩, q4⟩, q5⟩, q6⟩, q7⟩, q8⟩, q9⟩, q10⟩, q11⟩, q12⟩, q13⟩, q14⟩, q15⟩, q16⟩, q17⟩, q18⟩, q19⟩, q20⟩, q21⟩, q22⟩, q23⟩, q24⟩, q25⟩, q26⟩, q27⟩, q28⟩, q29⟩ := hp
  refine ⟨?_, specificWound_last _⟩
  simp [getFieldMatch, getFieldMatchCore, hw, q1, q2, q3, q4, q5, q6, q7, q8, q9, q10, q11, q12, q13, q14, q15, q16, q17, q18, q19, q20, q21, q22, q23, q24, q25, q26, q27, q28, q29]

/-- Claim C3 witness: the amended statement instantiated at
"wound on left forearm". -/
theorem c3_witness :
    getFieldMatch "wound on left forearm" testCfg testBi =
      some [W testCfg "wound",
            ((testCfg "specify_wound").field_xref, specificWound (normTxt "wound on left forearm"))]
    ∧ (specificWound (normTxt "wound on left forearm")).data.getLast? = some ' ' :=
  c3_amended testCfg testBi "wound on left forearm" (by decide) (by decide)

/-- Claim C9: a line that reaches the vitamin-D rule (it contains "vitamin" or
"hydroxy" after normalization and no earlier rule matched) but contains
neither "insured" nor "uninsured" gets an empty field map, which is falsy, so
the caller routes the line to the next overflow slot (or drops it when the
slots are exhausted) even though a rule matched it. -/
theorem c9_vitamin_empty (cfg : FieldConfig) (bi : BasicInfo) (t : String)
    (hvit : vitaminCond (normTxt t) = true)
    (hp : vitaminPrior (normTxt t) = false)
    (hins : sContains (normTxt t) "insured" = false)
    (huni : sContains (normTxt t) "uninsured" = false) :
    getFieldMatch t cfg bi = some []
    ∧ pyTruthy (getFieldMatch t cfg bi) = false
    ∧ (∀ rest count entries, count < MAX_OTHER_TESTS →
        submitLoop cfg bi (t :: rest) count entries =
          submitLoop cfg bi rest (count + 1)
            (entries ++ [((cfg ("other_tests" ++ toString (count + 1))).field_xref, t)]))
    ∧ (∀ rest count entries, ¬ count < MAX_OTHER_TESTS →
        submitLoop cfg bi (t :: rest) count entries = submitLoop cfg bi rest count entries) := by
  simp only [vitaminPrior, woundPrior, ratioPrior, Bool.or_eq_false_iff] at hp
  obtain ⟨⟨⟨⟨⟨⟨⟨⟨⟨⟨⟨⟨⟨⟨⟨⟨⟨⟨⟨⟨⟨⟨⟨⟨⟨⟨⟨⟨⟨⟨⟨⟨⟨⟨⟨⟨⟨⟨q1, q2⟩, q3⟩, q4⟩, q5⟩, q6⟩, q7⟩, q8⟩, q9⟩, q10⟩, q11⟩, q12⟩, q13⟩, q14⟩, q15⟩, q16⟩, q17⟩, q18⟩, q19⟩, q20⟩, q21⟩, q22⟩, q23⟩, q24⟩, q25⟩, q26⟩, q27⟩, q28⟩, q29⟩, q30⟩, q31⟩, q32⟩, q33⟩, q34⟩, q35⟩, q36⟩, q37⟩, q38⟩, q39⟩ := hp
  have hmain : getFieldMatch t cfg bi = some [] := by
    simp [getFieldMatch, getFieldMatchCore, hvit, hins, huni, q1, q2, q3, q4, q5, q6, q7, q8, q9, q10, q11, q12, q13, q14, q15, q16, q17, q18, q19, q20, q21, q22, q23, q24, q25, q26, q27, q28, q29, q30, q31, q32, q33, q34, q35, q36, q37, q38, q39]
  have htr : pyTruthy (getFieldMatch t cfg bi) = false := by
    rw [hmain]
    rfl
  refine ⟨hmain, htr, ?_, ?_⟩
  · intro rest count entries hlt
    simp [submitLoop, htr, hlt]
  · intro rest count entries hge
    simp [submitLoop, htr, hge]

/-- Claim C9 witness: "vitamin d" yields an empty field map and lands in
overflow slot 1 when the first slot is free. -/
theorem c9_witness :
    getFieldMatch "vitamin d" testCfg testBi = some []
    ∧ submitLoop testCfg testBi ["vitamin d"] 0 [] = ([("X_other_tests1", "vitamin d")], 1) := by
  have h := c9_vitamin_empty testCfg testBi "vitamin d" (by decide) (by decide) (by decide) (by decide)
  refine ⟨h.1, ?_⟩
  rw [h.2.2.1 [] 0 [] (by decide)]
  rfl

/-- Claim C10: an unmatched line is stored in the next free overflow slot
verbatim: the write pairs the slot's field_xref with the raw line exactly as
received, not with the lowercased and trimmed form used for matching. -/
theorem c10_overflow_verbatim (cfg : FieldConfig) (bi : BasicInfo) (line : String)
    (rest : List String) (count : Nat) (entries : Dict)
    (hmatch : pyTruthy (getFieldMatch line cfg bi) = false)
    (hcount : count < MAX_OTHER_TESTS) :
    submitLoop cfg bi (line :: rest) count entries =
      submitLoop cfg bi rest (count + 1)
        (entries ++ [((cfg ("other_tests" ++ toString (count + 1))).field_xref, line)]) := by
  simp [submitLoop, hmatch, hcount]

/-- Claim C10 witness: the line " Zzz " keeps its case and surrounding
whitespace in the stored slot value. -/
theorem c10_witness :
    submitLoop testCfg testBi [" Zzz "] 0 [] = ([("X_other_tests1", " Zzz ")], 1) := by
  rw [c10_overflow_verbatim testCfg testBi " Zzz " [] 0 [] (by decide) (by decide)]
  rfl

theorem isSlotKey_slotXref (cfg : FieldConfig) (count : Nat) (h : count < MAX_OTHER_TESTS) :
    isSlotKey cfg (slotXref cfg (count + 1)) = true := by
  simp only [isSlotKey, List.any_eq_true]
  exact ⟨count, List.mem_range.mpr h, by simp⟩

theorem overflowAssign_at_cap (cfg : FieldConfig) (l : List String) (c : Nat)
    (h : ¬ c < MAX_OTHER_TESTS) : overflowAssign cfg l c = [] := by
  cases l with
  | nil => rfl
  | cons x xs => simp [overflowAssign, h]

theorem submitLoop_spec (cfg : FieldConfig) (bi : BasicInfo) (inputs : List String)
    (count : Nat) (entries : Dict)
    (hc : count ≤ MAX_OTHER_TESTS)
    (hfresh : ∀ l ∈ inputs, ((getFieldMatch l cfg bi).getD []).all
        (fun w => !isSlotKey cfg w.1) = true) :
    (submitLoop cfg bi inputs count entries).2 =
      min MAX_OTHER_TESTS (count + (unmatchedLines cfg bi inputs).length)
    ∧ (submitLoop cfg bi inputs count entries).1.filter (fun w => isSlotKey cfg w.1) =
      entries.filter (fun w => isSlotKey cfg w.1) ++
        overflowAssign cfg (unmatchedLines cfg bi inputs) count := by
  induction inputs generalizing count entries with
  | nil =>
    constructor
    · simp only [submitLoop, unmatchedLines, List.filter_nil, List.length_nil]
      omega
    · simp [submitLoop, unmatchedLines, overflowAssign]
  | cons line rest ih =>
    have hfr := hfresh line (by simp)
    have hfresh2 : ∀ l ∈ rest, ((getFieldMatch l cfg bi).getD []).all
        (fun w => !isSlotKey cfg w.1) = true := fun l hl => hfresh l (by simp [hl])
    by_cases ht : pyTruthy (getFieldMatch line cfg bi)
    · have hu : unmatchedLines cfg bi (line :: rest) = unmatchedLines cfg bi rest := by
        simp [unmatchedLines, ht]
      have hstep : submitLoop cfg bi (line :: rest) count entries =
          submitLoop cfg bi rest count (entries ++ (getFieldMatch line cfg bi).getD []) := by
        simp [submitLoop, ht]
      obtain ⟨ihc, ihe⟩ :=
        ih count (entries ++ (getFieldMatch line cfg bi).getD []) hc hfresh2
      have hflt : ((getFieldMatch line cfg bi).getD []).filter
          (fun w => isSlotKey cfg w.1) = [] := by
        rw [List.filter_eq_nil_iff]
        intro a ha
        have hall := (List.all_eq_true.mp hfr) a ha
        simpa using hall
      constructor
      · rw [hstep, ihc, hu]
      · rw [hstep, ihe, hu, List.filter_append, hflt, List.append_nil]
    · have hu : unmatchedLines cfg bi (line :: rest) =
          line :: unmatchedLines cfg bi rest := by
        simp [unmatchedLines, ht]
      by_cases hlt : count < MAX_OTHER_TESTS
      · have hstep : submitLoop cfg bi (line :: rest) count entries =
            submitLoop cfg bi rest (count + 1)
              (entries ++ [(slotXref cfg (count + 1), line)]) := by
          simp [submitLoop, ht, hlt, slotXref]
        obtain ⟨ihc, ihe⟩ :=
          ih (count + 1) (entries ++ [(slotXref cfg (count + 1), line)]) (by omega) hfresh2
        constructor
        · rw [hstep, ihc, hu]
          simp only [List.length_cons]
          omega
        · rw [hstep, ihe, hu, List.filter_append]
          have hk : [(slotXref cfg (count + 1), line)].filter
              (fun w => isSlotKey cfg w.1) = [(slotXref cfg (count + 1), line)] := by
            simp [isSlotKey_slotXref cfg count hlt]
          rw [hk]
          simp only [overflowAssign, if_pos hlt]
          simp
      · have hstep : submitLoop cfg bi (line :: rest) count entries =
            submitLoop cfg bi rest count entries := by
          simp [submitLoop, ht, hlt]
        obtain ⟨ihc, ihe⟩ := ih count entries hc hfresh2
        constructor
        · rw [hstep, ihc, hu]
          simp only [List.length_cons]
          omega
        · rw [hstep, ihe, hu]
          rw [overflowAssign_at_cap cfg _ count hlt,
            overflowAssign_at_cap cfg _ count hlt]

/-- Claim C4: the unmatched lines of a request go to the overflow slots
other_tests1..other_tests11 in arrival order, first free slot first, and every
unmatched line after the eleventh is dropped; the loop is a total function, so
no error is raised. Formally: the final slot count is
min 11 (number of unmatched lines), and the slot-keyed writes of the final
entries are exactly the spec-side overflow assignment of the unmatched lines,
assuming no classifier rule writes to a slot identifier. -/
theorem c4_overflow (cfg : FieldConfig) (bi : BasicInfo) (inputs : List String)
    (hfresh : ∀ l ∈ inputs, ((getFieldMatch l cfg bi).getD []).all
        (fun w => !isSlotKey cfg w.1) = true) :
    (submitLoop cfg bi inputs 0 []).2 =
      min MAX_OTHER_TESTS (unmatchedLines cfg bi inputs).length
    ∧ (submitLoop cfg bi inputs 0 []).1.filter (fun w => isSlotKey cfg w.1) =
      overflowAssign cfg (unmatchedLines cfg bi inputs) 0 := by
  obtain ⟨h1, h2⟩ := submitLoop_spec cfg bi inputs 0 [] (by omega) hfresh
  constructor
  · simpa using h1
  · simpa using h2

/-- Claim C4 witness: twelve unclassifiable lines fill exactly the eleven
slots in arrival order and the twelfth line is silently dropped. -/
theorem c4_witness :
    (submitLoop testCfg testBi
      ["q1", "q2", "q3", "q4", "q5", "q6", "q7", "q8", "q9", "q10", "q11", "q12"] 0 []).2 = 11
    ∧ (submitLoop testCfg testBi
      ["q1", "q2", "q3", "q4", "q5", "q6", "q7", "q8", "q9", "q10", "q11", "q12"] 0 []).1 =
      [("X_other_tests1", "q1"), ("X_other_tests2", "q2"), ("X_other_tests3", "q3"),
       ("X_other_tests4", "q4"), ("X_other_tests5", "q5"), ("X_other_tests6", "q6"),
       ("X_other_tests7", "q7"), ("X_other_tests8", "q8"), ("X_other_tests9", "q9"),
       ("X_other_tests10", "q10"), ("X_other_tests11", "q11")] := by
  have h := c4_overflow testCfg testBi
    ["q1", "q2", "q3", "q4", "q5", "q6", "q7", "q8", "q9", "q10", "q11", "q12"] (by decide)
  constructor
  · rw [h.1]
    decide
  · decide

/-- Claim C7: invalid ids fail with a 400 client error before any remote fetch
or file I/O. A patient or doctor id that int() rejects yields the 400 integer
error; parsed ids missing from the preloaded valid sets yield a 400 error
whose message lists each invalid id (both ids when both are invalid). In all
of these cases the response does not depend on the remote-fetch function, and
the success path (the only one that reaches fillPDF) is never taken. -/
theorem c7_validation (cfg : FieldConfig) (f1 f2 : Int → Int → Dict)
    (valid : ValidIds) (data : RequestData) :
    ((pyToInt data.patient_id = none ∨ pyToInt data.doctor_id = none) →
      receive_text cfg f1 valid data =
        Response.clientError 400 "Error: Patient ID and Doctor ID must be integers")
    ∧ (∀ pid did : Int, pyToInt data.patient_id = some pid →
        pyToInt data.doctor_id = some did →
        pid ∉ valid.patients → did ∈ valid.doctors →
        receive_text cfg f1 valid data =
          Response.clientError 400 ("Invalid patient ID: " ++ toString pid))
    ∧ (∀ pid did : Int, pyToInt data.patient_id = some pid →
        pyToInt data.doctor_id = some did →
        pid ∈ valid.patients → did ∉ valid.doctors →
        receive_text cfg f1 valid data =
          Response.clientError 400 ("Invalid doctor ID: " ++ toString did))
    ∧ (∀ pid did : Int, pyToInt data.patient_id = some pid →
        pyToInt data.doctor_id = some did →
        pid ∉ valid.patients → did ∉ valid.doctors →
        receive_text cfg f1 valid data =
          Response.clientError 400
            ("Invalid patient ID: " ++ toString pid ++ "; " ++
              ("Invalid doctor ID: " ++ toString did)))
    ∧ ((pyToInt data.patient_id = none ∨ pyToInt data.doctor_id = none ∨
        (∃ pid, pyToInt data.patient_id = some pid ∧ pid ∉ valid.patients) ∨
        (∃ did, pyToInt data.doctor_id = some did ∧ did ∉ valid.doctors)) →
        receive_text cfg f1 valid data = receive_text cfg f2 valid data) := by
  refine ⟨?_, ?_, ?_, ?_, ?_⟩
  · intro h
    rcases h with h | h
    · simp [receive_text, h]
    · cases hp : pyToInt data.patient_id with
      | none => simp [receive_text, hp]
      | some pid => simp [receive_text, hp, h]
  · intro pid did hp hd hnp hyd
    simp only [receive_text, hp, hd, if_neg hnp, if_pos hyd]
    rfl
  · intro pid did hp hd hyp hnd
    simp only [receive_text, hp, hd, if_pos hyp, if_neg hnd]
    rfl
  · intro pid did hp hd hnp hnd
    simp only [receive_text, hp, hd, if_neg hnp, if_neg hnd]
    rfl
  · intro h
    rcases h with h | h | ⟨pid, hp, hnp⟩ | ⟨did, hd, hnd⟩
    · simp [receive_text, h]
    · cases hp : pyToInt data.patient_id with
      | none => simp [receive_text, hp]
      | some pid => simp [receive_text, hp, h]
    · cases hd : pyToInt data.doctor_id with
      | none => simp [receive_text, hp, hd]
      | some did =>
        by_cases hyd : did ∈ valid.doctors
        · simp only [receive_text, hp, hd, if_neg hnp, if_pos hyd]
          rfl
        · simp only [receive_text, hp, hd, if_neg hnp, if_neg hyd]
          rfl
    · cases hp : pyToInt data.patient_id with
      | none => simp [receive_text, hp]
      | some pid =>
        by_cases hyp : pid ∈ valid.patients
        · simp only [receive_text, hp, hd, if_pos hyp, if_neg hnd]
          rfl
        · simp only [receive_text, hp, hd, if_neg hyp, if_neg hnd]
          rfl

/-- Claim C7 witness: a non-integer id and a pair of unknown ids, each with
two different fetch functions. -/
theorem c7_witness :
    receive_text testCfg (fun _ _ => []) ⟨[1, 2], [3, 4]⟩
        ⟨PyVal.pyStr "abc", PyVal.pyInt 3, PyVal.pyList []⟩ =
      Response.clientError 400 "Error: Patient ID and Doctor ID must be integers"
    ∧ receive_text testCfg (fun _ _ => []) ⟨[1, 2], [3, 4]⟩
        ⟨PyVal.pyInt 5, PyVal.pyInt 7, PyVal.pyList []⟩ =
      Response.clientError 400 "Invalid patient ID: 5; Invalid doctor ID: 7"
    ∧ receive_text testCfg (fun _ _ => []) ⟨[1, 2], [3, 4]⟩
        ⟨PyVal.pyInt 5, PyVal.pyInt 7, PyVal.pyList []⟩ =
      receive_text testCfg (fun _ _ => [("k", "v")]) ⟨[1, 2], [3, 4]⟩
        ⟨PyVal.pyInt 5, PyVal.pyInt 7, PyVal.pyList []⟩ := by
  refine ⟨?_, ?_, ?_⟩
  · exact (c7_validation testCfg (fun _ _ => []) (fun _ _ => []) ⟨[1, 2], [3, 4]⟩
      ⟨PyVal.pyStr "abc", PyVal.pyInt 3, PyVal.pyList []⟩).1 (Or.inl (by decide))
  · have h := (c7_validation testCfg (fun _ _ => []) (fun _ _ => []) ⟨[1, 2], [3, 4]⟩
      ⟨PyVal.pyInt 5, PyVal.pyInt 7, PyVal.pyList []⟩).2.2.2.1 5 7 rfl rfl
      (by decide) (by decide)
    rw [h]
    decide
  · exact (c7_validation testCfg (fun _ _ => []) (fun _ _ => [("k", "v")]) ⟨[1, 2], [3, 4]⟩
      ⟨PyVal.pyInt 5, PyVal.pyInt 7, PyVal.pyList []⟩).2.2.2.2
      (Or.inr (Or.inr (Or.inl ⟨5, rfl, by decide⟩)))

theorem xref_clash (cfg : FieldConfig)
    (hinj : ∀ n : String, n ≠ "albumin_creatinine_ratio" →
      (cfg n).field_xref ≠ (cfg "albumin_creatinine_ratio").field_xref)
    (name : String) (hn : name ≠ "albumin_creatinine_ratio") (rest : Dict)
    (h : some (W cfg name :: rest) = some [W cfg "albumin_creatinine_ratio"]) : False := by
  simp only [Option.some.injEq, List.cons.injEq] at h
  exact hinj name hn (congrArg Prod.fst h.1)

theorem ratio_emit (cfg : FieldConfig) (bi : BasicInfo) (s : Str)
    (hr : ratioCond s = true) (hp : ratioPrior s = false) :
    getFieldMatchCore s cfg bi = some [W cfg "albumin_creatinine_ratio"] := by
  simp only [ratioPrior, Bool.or_eq_false_iff] at hp
  obtain ⟨⟨⟨⟨⟨⟨⟨⟨⟨⟨p1, p2⟩, p3⟩, p4⟩, p5⟩, p6⟩, p7⟩, p8⟩, p9⟩, p10⟩, p11⟩ := hp
  simp [getFieldMatchCore, hr, p1, p2, p3, p4, p5, p6, p7, p8, p9, p10, p11]

/-- Claim C1: under a configuration whose field identifiers are injective (the
spec's field_xref join-key invariant), the albumin/creatinine-ratio rule fires,
emitting exactly the albumin_creatinine_ratio assignment and nothing else, if
and only if the normalized line satisfies (albumin and creatinine) or (albumin
and ratio) or (creatinine and ratio) and no earlier rule of the chain matched;
in particular "creatinine and albumin ratio" yields exactly the ratio field. -/
theorem c1_ratio_rule (cfg : FieldConfig) (bi : BasicInfo) (t : String)
    (hinj : ∀ n : String, n ≠ "albumin_creatinine_ratio" →
      (cfg n).field_xref ≠ (cfg "albumin_creatinine_ratio").field_xref) :
    (getFieldMatch t cfg bi = some [W cfg "albumin_creatinine_ratio"] ↔
      (ratioCond (normTxt t) = true ∧ ratioPrior (normTxt t) = false))
    ∧ getFieldMatch "creatinine and albumin ratio" cfg bi =
        some [W cfg "albumin_creatinine_ratio"] := by
  constructor
  · constructor
    · intro h
      unfold getFieldMatch at h
      revert h
      generalize normTxt t = s
      intro h
      unfold getFieldMatchCore at h
      simp only [List.singleton_append] at h
      by_cases h1 : glucoseCond s = true
      · rw [if_pos h1] at h
        exact (xref_clash cfg hinj "glucose" (by decide) _ h).elim
      rw [if_neg h1] at h
      by_cases h2 : hba1cCond s = true
      · rw [if_pos h2] at h
        exact (xref_clash cfg hinj "hba1c" (by decide) _ h).elim
      rw [if_neg h2] at h
      by_cases h3 : creatinineCond s = true
      · rw [if_pos h3] at h
        exact (xref_clash cfg hinj "creatinine" (by decide) _ h).elim
      rw [if_neg h3] at h
      by_cases h4 : uricCond s = true
      · rw [if_pos h4] at h
        exact (xref_clash cfg hinj "uric_acid" (by decide) _ h).elim
      rw [if_neg h4] at h
      by_cases h5 : sodiumCond s = true
      · rw [if_pos h5] at h
        exact (xref_clash cfg hinj "sodium" (by decide) _ h).elim
      rw [if_neg h5] at h
      by_cases h6 : potassiumCond s = true
      · rw [if_pos h6] at h
        exact (xref_clash cfg hinj "potassium" (by decide) _ h).elim
      rw [if_neg h6] at h
      by_cases h7 : altCond s = true
      · rw [if_pos h7] at h
        exact (xref_clash cfg hinj "alt" (by decide) _ h).elim
      rw [if_neg h7] at h
      by_cases h8 : phosphataseCond s = true
      · rw [if_pos h8] at h
        exact (xref_clash cfg hinj "alk_phosphatase" (by decide) _ h).elim
      rw [if_neg h8] at h
      by_cases h9 : bilirubinCond s = true
      · rw [if_pos h9] at h
        exact (xref_clash cfg hinj "bilirubin" (by decide) _ h).elim
      rw [if_neg h9] at h
      by_cases h10 : albuminCond s = true
      · rw [if_pos h10] at h
        exact (xref_clash cfg hinj "albumin" (by decide) _ h).elim
      rw [if_neg h10] at h
      by_cases h11 : lipidCond s = true
      · rw [if_pos h11] at h
        exact (xref_clash cfg hinj "lipid_assessment" (by decide) _ h).elim
      rw [if_neg h11] at h
      by_cases h12 : ratioCond s = true
      · rw [if_pos h12] at h
        refine ⟨h12, ?_⟩
        have e1 : glucoseCond s = false := Bool.eq_false_iff.mpr h1
        have e2 : hba1cCond s = false := Bool.eq_false_iff.mpr h2
        have e3 : creatinineCond s = false := Bool.eq_false_iff.mpr h3
        have e4 : uricCond s = false := Bool.eq_false_iff.mpr h4
        have e5 : sodiumCond s = false := Bool.eq_false_iff.mpr h5
        have e6 : potassiumCond s = false := Bool.eq_false_iff.mpr h6
        have e7 : altCond s = false := Bool.eq_false_iff.mpr h7
        have e8 : phosphataseCond s = false := Bool.eq_false_iff.mpr h8
        have e9 : bilirubinCond s = false := Bool.eq_false_iff.mpr h9
        have e10 : albuminCond s = false := Bool.eq_false_iff.mpr h10
        have e11 : lipidCond s = false := Bool.eq_false_iff.mpr h11
        simp [ratioPrior, e1, e2, e3, e4, e5, e6, e7, e8, e9, e10, e11]
      rw [if_neg h12] at h
      by_cases h13 : urinalysisCond s = true
      · rw [if_pos h13] at h
        exact (xref_clash cfg hinj "urinalysis" (by decide) _ h).elim
      rw [if_neg h13] at h
      by_cases h14 : neonatalCond s = true
      · rw [if_pos h14] at h
        exact (xref_clash cfg hinj "neonatal_bilirubin" (by decide) _ h).elim
      rw [if_neg h14] at h
      by_cases h15 : therapeuticCond s = true
      · rw [if_pos h15] at h
        exact (xref_clash cfg hinj "therapeutic_drug" (by decide) _ h).elim
      rw [if_neg h15] at h
      by_cases h16 : cbcCond s = true
      · rw [if_pos h16] at h
        exact (xref_clash cfg hinj "cbc" (by decide) _ h).elim
      rw [if_neg h16] at h
      by_cases h17 : prothrombinCond s = true
      · rw [if_pos h17] at h
        exact (xref_clash cfg hinj "prothrombin_time" (by decide) _ h).elim
      rw [if_neg h17] at h
      by_cases h18 : pregnancyCond s = true
      · rw [if_pos h18] at h
        exact (xref_clash cfg hinj "pregnancy_urine" (by decide) _ h).elim
      rw [if_neg h18] at h
      by_cases h19 : mononucleosisCond s = true
      · rw [if_pos h19] at h
        exact (xref_clash cfg hinj "mononucleosis_screen" (by decide) _ h).elim
      rw [if_neg h19] at h
      by_cases h20 : rubellaCond s = true
      · rw [if_pos h20] at h
        exact (xref_clash cfg hinj "rubella" (by decide) _ h).elim
      rw [if_neg h20] at h
      by_cases h21 : prenatalCond s = true
      · rw [if_pos h21] at h
        exact (xref_clash cfg hinj "prenatal" (by decide) _ h).elim
      rw [if_neg h21] at h
      by_cases h22 : repeatPrenatalCond s = true
      · rw [if_pos h22] at h
        exact (xref_clash cfg hinj "repeat_prenatal_antibodies" (by decide) _ h).elim
      rw [if_neg h22] at h
      by_cases h23 : cervicalCond s = true
      · rw [if_pos h23] at h
        exact (xref_clash cfg hinj "cervical" (by decide) _ h).elim
      rw [if_neg h23] at h
      by_cases h24 : vaginalCond s = true
      · rw [if_pos h24] at h
        by_cases h24b : vagRectalCond s = true
        · rw [if_pos h24b] at h
          exact (xref_clash cfg hinj "vaginal_rectal" (by decide) _ h).elim
        rw [if_neg h24b] at h
        exact (xref_clash cfg hinj "vaginal" (by decide) _ h).elim
      rw [if_neg h24] at h
      by_cases h25 : rectalCond s = true
      · rw [if_pos h25] at h
        exact (xref_clash cfg hinj "vaginal_rectal" (by decide) _ h).elim
      rw [if_neg h25] at h
      by_cases h26 : chlamydiaCond s = true
      · rw [if_pos h26] at h
        exact (xref_clash cfg hinj "chlamydia" (by decide) _ h).elim
      rw [if_neg h26] at h
      by_cases h27 : gcCond s = true
      · rw [if_pos h27] at h
        exact (xref_clash cfg hinj "gc" (by decide) _ h).elim
      rw [if_neg h27] at h
      by_cases h28 : sputumCond s = true
      · rw [if_pos h28] at h
        exact (xref_clash cfg hinj "sputum" (by decide) _ h).elim
      rw [if_neg h28] at h
      by_cases h29 : throatCond s = true
      · rw [if_pos h29] at h
        exact (xref_clash cfg hinj "throat" (by decide) _ h).elim
      rw [if_neg h29] at h
      by_cases h30 : woundCond s = true
      · rw [if_pos h30] at h
        exact (xref_clash cfg hinj "wound" (by decide) _ h).elim
      rw [if_neg h30] at h
      by_cases h31 : urineCond s = true
      · rw [if_pos h31] at h
        exact (xref_clash cfg hinj "urine" (by decide) _ h).elim
      rw [if_neg h31] at h
      by_cases h32 : cultureCond s = true
      · rw [if_pos h32] at h
        exact (xref_clash cfg hinj "stool_culture" (by decide) _ h).elim
      rw [if_neg h32] at h
      by_cases h33 : stoolCond s = true
      · rw [if_pos h33] at h
        exact (xref_clash cfg hinj "stool_ova_parasites" (by decide) _ h).elim
      rw [if_neg h33] at h
      by_cases h34 : swabsCond s = true
      · rw [if_pos h34] at h
        exact (xref_clash cfg hinj "other_swabs" (by decide) _ h).elim
      rw [if_neg h34] at h
      by_cases h35 : acuteCond s = true
      · rw [if_pos h35] at h
        exact (xref_clash cfg hinj "viral_hep_acute" (by decide) _ h).elim
      rw [if_neg h35] at h
      by_cases h36 : chronicCond s = true
      · rw [if_pos h36] at h
        exact (xref_clash cfg hinj "viral_hep_chronic" (by decide) _ h).elim
      rw [if_neg h36] at h
      by_cases h37 : statusCond s = true
      · rw [if_pos h37] at h
        exact (xref_clash cfg hinj "viral_hep_immune" (by decide) _ h).elim
      rw [if_neg h37] at h
      by_cases h38 : totalCond s = true
      · rw [if_pos h38] at h
        exact (xref_clash cfg hinj "total_psa" (by decide) _ h).elim
      rw [if_neg h38] at h
      by_cases h39 : freeCond s = true
      · rw [if_pos h39] at h
        exact (xref_clash cfg hinj "free_psa" (by decide) _ h).elim
      rw [if_neg h39] at h
      by_cases h40 : vitaminCond s = true
      · rw [if_pos h40] at h
        by_cases h40a : sContains s "insured" = true
        · rw [if_pos h40a] at h
          exact (xref_clash cfg hinj "insured_vitd" (by decide) _ h).elim
        rw [if_neg h40a] at h
        by_cases h40b : sContains s "uninsured" = true
        · rw [if_pos h40b] at h
          exact (xref_clash cfg hinj "uninsured_vitd" (by decide) _ h).elim
        rw [if_neg h40b] at h
        simp at h
      rw [if_neg h40] at h
      exact Option.noConfusion h
    · intro hc
      exact ratio_emit cfg bi (normTxt t) hc.1 hc.2
  · exact ratio_emit cfg bi (normTxt "creatinine and albumin ratio") (by decide) (by decide)

theorem testCfg_xref_ne (n : String) (hn : n ≠ "albumin_creatinine_ratio") :
    (testCfg n).field_xref ≠ (testCfg "albumin_creatinine_ratio").field_xref := by
  intro h
  apply hn
  have h1 : ("X_" ++ n) = ("X_" ++ "albumin_creatinine_ratio") := h
  have h2 : ("X_" ++ n).data = ("X_" ++ "albumin_creatinine_ratio").data :=
    congrArg String.data h1
  rw [data_append, data_append] at h2
  exact String.ext (List.append_cancel_left h2)

/-- Claim C1 witness: the characterization instantiated at a concrete line and
the injective concrete configuration; the concrete part records that
"creatinine and albumin ratio" maps to exactly the ratio assignment. -/
theorem c1_witness :
    (getFieldMatch "albumin ratio test" testCfg testBi =
        some [W testCfg "albumin_creatinine_ratio"] ↔
      (ratioCond (normTxt "albumin ratio test") = true ∧
        ratioPrior (normTxt "albumin ratio test") = false))
    ∧ getFieldMatch "creatinine and albumin ratio" testCfg testBi =
        some [W testCfg "albumin_creatinine_ratio"] :=
  c1_ratio_rule testCfg testBi "albumin ratio test" testCfg_xref_ne

end ReqForm
